import Mathlib

/-!
Shallow embedding of the Vulkan bootstrap core of the FPlot repository
(src/src/renderer/vk/base_vk.rs).  Vulkan handles are modelled as natural
numbers with 0 standing for a null handle; driver interaction is modelled by
explicit environment records whose fields hold the values the driver would
return; fatal paths (Rust panic / expect / unwrap) are modelled by Option,
with none standing for abort.  Bit flags are natural numbers combined with
bitwise and, matching ash's Flags::contains.
-/

namespace FPlot

/-- ash `Flags::contains`: `self & other == other` (other ⊆ self). -/
def flagsContain (self other : Nat) : Bool :=
  self &&& other == other

/-- `num::clamp(input, lo, hi)`: lo if input < lo, hi if input > hi, else input. -/
def clampNum (v lo hi : Nat) : Nat :=
  if v < lo then lo else if hi < v then hi else v

/-- ash `vk::PresentModeKHR::FIFO` has raw value 2. -/
def fifoMode : Nat := 2

/-- ash `vk::SurfaceTransformFlagsKHR::IDENTITY` raw value. -/
def preTransformIdentity : Nat := 1

/-- ash `vk::CompositeAlphaFlagsKHR::OPAQUE` raw value. -/
def compositeAlphaOpaque : Nat := 1

/-- `vk::Extent2D`. -/
structure Extent2D where
  width : Nat
  height : Nat
  deriving DecidableEq, Repr

/-- `vk::SurfaceFormatKHR`: the code compares both fields for equality. -/
structure SurfaceFormat where
  format : Nat
  colorSpace : Nat
  deriving DecidableEq, Repr

/-- The fields of `vk::SurfaceCapabilitiesKHR` read by `recreate_swapchain`. -/
structure SurfaceCaps where
  minImageCount : Nat
  maxImageCount : Nat
  currentExtent : Extent2D
  minImageExtent : Extent2D
  maxImageExtent : Extent2D
  supportedUsageFlags : Nat
  deriving DecidableEq, Repr

/-- The fields of `vk::SwapchainCreateInfoKHR` that `recreate_swapchain`
fills in (all other fields keep the ash builder's zero defaults on every
call, so they are omitted from the model). -/
structure SwapchainCreateInfoKHR where
  imageArrayLayers : Nat
  surface : Nat
  preTransform : Nat
  compositeAlpha : Nat
  clipped : Bool
  oldSwapchain : Nat
  presentMode : Nat
  minImageCount : Nat
  imageExtent : Extent2D
  imageUsage : Nat
  imageFormat : Nat
  imageColorSpace : Nat
  deriving DecidableEq, Repr

/-- Observable driver calls that create or destroy handles, emitted in
program order by the modelled operations. -/
inductive Event where
  | cSwap (h : Nat)
  | dSwap (h : Nat)
  | cView (h : Nat)
  | dView (h : Nat)
  | dAlloc
  | dDev
  | dSurf (h : Nat)
  | dMsgr
  | dInst
  deriving DecidableEq, Repr

/-! ## Feature-chain helpers

Modelled from the spec: the module `pointer_chain_helpers` (the functions
`clone_vk_physical_device_features2_structure`,
`compare_vk_physical_device_features2` and
`destroy_vk_physical_device_features2` used by `BaseVk::new`) is not among
the provided sources; its behaviour is taken from spec sections 4.1 and 9:
a features2 chain is a root structure of boolean (`Bool32`) fields plus a
list of typed nodes of boolean fields; clone preserves type tags and chain
order with zeroed bits; compare(available, requested) holds iff every node
type of the requested chain occurs in the available chain and every
feature set (non-zero) in the requested structures is non-zero in the
matching available structure, root fields included. -/

/-- One `pNext`-chain node: a structure type tag and its `Bool32` fields. -/
structure FeatureNode where
  sType : Nat
  bits : List Nat
  deriving DecidableEq, Repr

/-- The root `vk::PhysicalDeviceFeatures`.  `BaseVk::new` names only the
field `robust_buffer_access` (the first field of the struct); the remaining
boolean fields are kept abstract as a list. -/
structure PhysicalDeviceFeatures where
  robustBufferAccess : Nat
  rest : List Nat
  deriving DecidableEq, Repr

/-- `vk::PhysicalDeviceFeatures2`: root features plus the `pNext` chain. -/
structure PhysicalDeviceFeatures2 where
  features : PhysicalDeviceFeatures
  chain : List FeatureNode
  deriving DecidableEq, Repr

/-- A `Bool32` requested bit is covered when it is unset or the available
bit is non-zero (spec section 9: any non-zero value counts as supported). -/
def bool32Covers (avail req : Nat) : Bool :=
  req == 0 || !(avail == 0)

/-- Root-features comparison: every set field of the requested structure is
set in the available structure, field by field. -/
def featuresCovered (avail req : PhysicalDeviceFeatures) : Bool :=
  bool32Covers avail.robustBufferAccess req.robustBufferAccess &&
    (List.zip avail.rest req.rest).all fun p => bool32Covers p.1 p.2

/-- A requested chain node is covered when a node of the same structure
type exists in the available chain and covers it bit by bit; an absent
node type counts as unsupported. -/
def nodeCovered (avail : List FeatureNode) (req : FeatureNode) : Bool :=
  match avail.find? fun n => n.sType == req.sType with
  | none => false
  | some a => (List.zip a.bits req.bits).all fun p => bool32Covers p.1 p.2

/-- Modelled from the spec: compare(available, requested) of section 4.1. -/
def compare_vk_physical_device_features2
    (avail req : PhysicalDeviceFeatures2) : Bool :=
  featuresCovered avail.features req.features &&
    req.chain.all (nodeCovered avail.chain)

/-- Modelled from the spec: deep clone of section 4.1 — same type tags and
chain order, all feature bits zeroed. -/
def clone_vk_physical_device_features2_structure
    (f : PhysicalDeviceFeatures2) : PhysicalDeviceFeatures2 :=
  { features := { robustBufferAccess := 0, rest := f.features.rest.map fun _ => 0 }
    chain := f.chain.map fun n => { sType := n.sType, bits := n.bits.map fun _ => 0 } }

/-- What a physical device advertises: its root features and, per structure
type, the bits of the corresponding extension feature structure. -/
structure DeviceFeatures where
  features : PhysicalDeviceFeatures
  chainBits : Nat → List Nat

/-- `get_physical_device_features2`: the driver overwrites the root features
and the bits of every node present in the queried chain with what the
device supports, leaving type tags and order intact. -/
def queryFeatures2 (dev : DeviceFeatures) (q : PhysicalDeviceFeatures2) :
    PhysicalDeviceFeatures2 :=
  { features := dev.features
    chain := q.chain.map fun n => { sType := n.sType, bits := dev.chainBits n.sType } }

/-- The feature acceptance test of `BaseVk::new` (base_vk.rs lines 200-239):
clone the requested chain, query the device's features into the clone, set
`features.robust_buffer_access` to 300 (line 233), then compare. -/
def deviceFeatureCheck (req : PhysicalDeviceFeatures2) (dev : DeviceFeatures) : Bool :=
  let avail := queryFeatures2 dev (clone_vk_physical_device_features2_structure req)
  let avail := { avail with features := { avail.features with robustBufferAccess := 300 } }
  compare_vk_physical_device_features2 avail req

/-- The acceptance test the spec describes (clone + query + compare, with no
overwriting of any field): every requested feature bit must actually be
advertised by the device. -/
def specFeatureCheck (req : PhysicalDeviceFeatures2) (dev : DeviceFeatures) : Bool :=
  compare_vk_physical_device_features2
    (queryFeatures2 dev (clone_vk_physical_device_features2_structure req)) req

/-! ## Physical-device selection (`BaseVk::new`, base_vk.rs lines 205-295) -/

/-- The fields of `vk::QueueFamilyProperties` read during selection. -/
structure QueueFamily where
  queueFlags : Nat
  queueCount : Nat
  deriving DecidableEq, Repr

/-- One enumerated physical device, with everything the driver reports for
it during selection.  Extension names are modelled by numeric identifiers
(the code compares C strings for equality). -/
structure PhysDevice where
  handle : Nat
  extensions : List Nat
  feats : DeviceFeatures
  queueFamilies : List QueueFamily
  surfaceSupport : Nat → Bool

/-- The queue-family predicate of base_vk.rs lines 255-280: every requested
flag set is contained in the family's flags, the family has at least as
many queues as requested, and, when a surface exists, the family supports
presenting to it. -/
def familyGood (desiredQueues : List (Nat × Nat)) (hasSurf : Bool)
    (d : PhysDevice) (i : Nat) (qf : QueueFamily) : Bool :=
  (desiredQueues.all fun q => flagsContain qf.queueFlags q.1) &&
    decide (desiredQueues.length ≤ qf.queueCount) &&
    (!hasSurf || d.surfaceSupport i)

/-- `find` over the enumerated queue families, returning the first good index. -/
def findGoodFamily (desiredQueues : List (Nat × Nat)) (hasSurf : Bool)
    (d : PhysDevice) : Option Nat :=
  (d.queueFamilies.enum.find? fun p => familyGood desiredQueues hasSurf d p.1 p.2).map
    fun p => p.1

/-- The `filter_map` over enumerated devices of base_vk.rs lines 206-287:
keep (handle, family index) of every device that advertises all desired
device extensions, passes `deviceFeatureCheck` and has a good queue family. -/
def goodDevices (devices : List PhysDevice) (devExts : List Nat)
    (req : PhysicalDeviceFeatures2) (desiredQueues : List (Nat × Nat))
    (hasSurf : Bool) : List (Nat × Nat) :=
  devices.filterMap fun d =>
    if !(devExts.all fun e => d.extensions.contains e) then none
    else if !(deviceFeatureCheck req d.feats) then none
    else (findGoodFamily desiredQueues hasSurf d).map fun fi => (d.handle, fi)

/-! ## Context state -/

/-- The handle-carrying state of `BaseVk` (base_vk.rs lines 12-30).  Loader
tables (`surface_fn`, `swapchain_fn`) carry no data relevant to the claims,
so only their presence is modelled; `entry_fn`, `instance`, `device` and the
allocator are unconditionally present and carry no modelled data. -/
structure BaseVkState where
  surface : Nat
  surfaceFnPresent : Bool
  physicalDevice : Nat
  queueFamilyIndex : Nat
  queues : List Nat
  swapchainFnPresent : Bool
  swapchainCreateInfo : Option SwapchainCreateInfoKHR
  swapchain : Nat
  swapchainImageViews : Option (List Nat)
  deriving Repr

/-- Driver responses consumed by `BaseVk::new`: the enumerated physical
devices, the queue handles `get_device_queue` returns per (family, index),
and the surface handle surface creation returns when a window is given. -/
structure NewEnv where
  devices : List PhysDevice
  getDeviceQueue : Nat → Nat → Nat
  surfaceHandle : Nat

/-- Numeric identifier standing for the extension name `VK_KHR_swapchain`
that `BaseVk::new` appends once a surface exists (base_vk.rs line 197). -/
def extSwapchainId : Nat := 1

/-- The surface handle held after construction: the created handle when a
window was supplied (base_vk.rs lines 156-188), null otherwise. -/
def newSurface (env : NewEnv) (hasWindow : Bool) : Nat :=
  if hasWindow then env.surfaceHandle else 0

/-- Device-extension augmentation (base_vk.rs lines 195-198): append the
swapchain extension once a surface exists. -/
def newDevExts (exts : List Nat) (surface : Nat) : List Nat :=
  if surface != 0 then exts ++ [extSwapchainId] else exts

/-- `BaseVk::new` (base_vk.rs lines 63-359), restricted to the state the
claims observe.  Window-tag dispatch, instance creation and the debug
messenger always succeed or abort without touching modelled state, so they
are elided; `none` models the `expect` abort when no device qualifies. -/
def BaseVk_new (env : NewEnv) (deviceExtensions : List Nat)
    (req : PhysicalDeviceFeatures2) (desiredQueues : List (Nat × Nat))
    (hasWindow : Bool) : Option BaseVkState :=
  match goodDevices env.devices (newDevExts deviceExtensions (newSurface env hasWindow))
      req desiredQueues (newSurface env hasWindow != 0) with
  | [] => none
  | sel :: _ =>
    some
      { surface := newSurface env hasWindow
        surfaceFnPresent := newSurface env hasWindow != 0
        physicalDevice := sel.1
        queueFamilyIndex := sel.2
        queues := (List.range desiredQueues.length).map (env.getDeviceQueue sel.2)
        swapchainFnPresent := hasWindow
        swapchainCreateInfo := none
        swapchain := 0
        swapchainImageViews := none }

/-! ## Swapchain recreation (`BaseVk::recreate_swapchain`, lines 361-499) -/

/-- Driver responses consumed by one `recreate_swapchain` call: the surface's
present modes, capabilities and formats, the handle `create_swapchain`
returns, the images `get_swapchain_images` reports for it, and the view
handle `create_image_view` returns per image. -/
structure RecreateEnv where
  presentModes : List Nat
  caps : SurfaceCaps
  formats : List SurfaceFormat
  createdSwapchain : Nat
  swapchainImages : List Nat
  createImageView : Nat → Nat

/-- Present-mode choice (lines 381-391): the requested mode when the surface
lists it, FIFO otherwise. -/
def chooseMode (supported : List Nat) (wanted : Nat) : Nat :=
  match supported.find? fun m => m == wanted with
  | some m => m
  | none => fifoMode

/-- Image-count choice (lines 401-408): `minImageCount + 1`, clamped above
by `maxImageCount` when that is non-zero. -/
def chooseImageCount (caps : SurfaceCaps) : Nat :=
  let base := caps.minImageCount + 1
  if caps.maxImageCount != 0 then min base caps.maxImageCount else base

/-- Extent choice (lines 410-427): clamp the requested size componentwise
when `currentExtent` is the 0xFFFFFFFF sentinel, else adopt `currentExtent`. -/
def chooseExtent (caps : SurfaceCaps) (ws : Extent2D) : Extent2D :=
  if caps.currentExtent.width == 0xFFFFFFFF && caps.currentExtent.height == 0xFFFFFFFF then
    { width := clampNum ws.width caps.minImageExtent.width caps.maxImageExtent.width
      height := clampNum ws.height caps.minImageExtent.height caps.maxImageExtent.height }
  else caps.currentExtent

/-- Format choice (lines 439-453): the requested (format, color-space) pair
when supported, else the first supported format; `none` models the `unwrap`
abort when the driver reports no formats at all. -/
def chooseFormat (supported : List SurfaceFormat) (wanted : SurfaceFormat) :
    Option SurfaceFormat :=
  match supported.find? fun e => e == wanted with
  | some f => some f
  | none => supported.head?

/-- `BaseVk::recreate_swapchain` (lines 361-499).  Returns the new state and
the trace of create/destroy calls in program order: the new swapchain is
created first (line 455), then the previous image views are destroyed
(lines 462-469), then a view per reported image is created (lines 471-497).
`none` models the aborts: missing surface support (line 385), unsupported
usage flags (line 434), no supported format (line 450), and the
`swapchain_fn` unwrap (line 456). -/
def recreate_swapchain (env : RecreateEnv) (st : BaseVkState) (presentMode : Nat)
    (windowSize : Extent2D) (usageFlags : Nat) (surfaceFormat : SurfaceFormat) :
    Option (BaseVkState × List Event) :=
  if st.surfaceFnPresent = true then
    if flagsContain env.caps.supportedUsageFlags usageFlags = true then
      match chooseFormat env.formats surfaceFormat with
      | some fmt =>
        if st.swapchainFnPresent = true then
          let newViews := env.swapchainImages.map env.createImageView
          some
            ({ st with
                swapchainCreateInfo := some
                  { imageArrayLayers := 1
                    surface := st.surface
                    preTransform := preTransformIdentity
                    compositeAlpha := compositeAlphaOpaque
                    clipped := true
                    oldSwapchain := st.swapchain
                    presentMode := chooseMode env.presentModes presentMode
                    minImageCount := chooseImageCount env.caps
                    imageExtent := chooseExtent env.caps windowSize
                    imageUsage := usageFlags
                    imageFormat := fmt.format
                    imageColorSpace := fmt.colorSpace }
                swapchain := env.createdSwapchain
                swapchainImageViews := some newViews }
              , Event.cSwap env.createdSwapchain ::
                  ((st.swapchainImageViews.getD []).map Event.dView
                    ++ newViews.map Event.cView))
        else none
      | none => none
    else none
  else none

/-- Arguments of one `recreate_swapchain` call. -/
structure RecArgs where
  presentMode : Nat
  windowSize : Extent2D
  usageFlags : Nat
  surfaceFormat : SurfaceFormat

/-- N successive `recreate_swapchain` calls, concatenating their traces. -/
def recreateSeq (st : BaseVkState) : List (RecreateEnv × RecArgs) →
    Option (BaseVkState × List Event)
  | [] => some (st, [])
  | (env, a) :: rest =>
    match recreate_swapchain env st a.presentMode a.windowSize a.usageFlags a.surfaceFormat with
    | none => none
    | some (st1, tr1) =>
      match recreateSeq st1 rest with
      | none => none
      | some (st2, tr2) => some (st2, tr1 ++ tr2)

/-- Image-view handles created along a trace, in order. -/
def createdViews : List Event → List Nat
  | [] => []
  | Event.cView h :: rest => h :: createdViews rest
  | _ :: rest => createdViews rest

/-- Image-view handles destroyed along a trace, in order. -/
def destroyedViews : List Event → List Nat
  | [] => []
  | Event.dView h :: rest => h :: destroyedViews rest
  | _ :: rest => destroyedViews rest

/-- Swapchain handles destroyed along a trace, in order. -/
def destroyedSwapchains : List Event → List Nat
  | [] => []
  | Event.dSwap h :: rest => h :: destroyedSwapchains rest
  | _ :: rest => destroyedSwapchains rest

/-! ## Destruction (`impl Drop for BaseVk`, base_vk.rs lines 617-640) -/

/-- The drop glue as a trace, in the source's statement order: allocator
first (line 620), then every retained image view (lines 621-625), the
swapchain when a loader exists (lines 627-629), the device (line 630), the
surface when a loader exists (lines 631-633), the debug messenger in debug
builds (lines 634-636), and the instance last (line 637).  `debugBuild`
models `cfg(debug_assertions)`. -/
def BaseVk_drop (debugBuild : Bool) (st : BaseVkState) : List Event :=
  [Event.dAlloc]
    ++ (st.swapchainImageViews.getD []).map Event.dView
    ++ (if st.swapchainFnPresent then [Event.dSwap st.swapchain] else [])
    ++ [Event.dDev]
    ++ (if st.surfaceFnPresent then [Event.dSurf st.surface] else [])
    ++ (if debugBuild then [Event.dMsgr] else [])
    ++ [Event.dInst]

/-- Discriminators for the event kinds whose relative order the claims fix. -/
def isDView : Event → Bool
  | Event.dView _ => true
  | _ => false

def isDSwap : Event → Bool
  | Event.dSwap _ => true
  | _ => false

def isDAlloc : Event → Bool
  | Event.dAlloc => true
  | _ => false

def isDDev : Event → Bool
  | Event.dDev => true
  | _ => false

def isDSurf : Event → Bool
  | Event.dSurf _ => true
  | _ => false

def isDMsgr : Event → Bool
  | Event.dMsgr => true
  | _ => false

def isDInst : Event → Bool
  | Event.dInst => true
  | _ => false

/-- Every event matched by `p` occurs strictly before every event matched
by `q` in the trace. -/
def evBefore (p q : Event → Bool) (tr : List Event) : Prop :=
  ∀ i j (hi : i < tr.length) (hj : j < tr.length),
    p (tr.get ⟨i, hi⟩) = true → q (tr.get ⟨j, hj⟩) = true → i < j

/-! ## Helper lemmas -/

theorem chooseMode_eq (s : List Nat) (w : Nat) :
    chooseMode s w = if w ∈ s then w else fifoMode := by
  induction s with
  | nil => simp [chooseMode]
  | cons a t ih =>
    by_cases hw : a = w
    · subst hw
      have hfind : List.find? (fun m => m == a) (a :: t) = some a :=
        List.find?_cons_of_pos t (by simp)
      unfold chooseMode
      rw [hfind]
      simp [List.mem_cons]
    · have hfind : List.find? (fun m => m == w) (a :: t) =
          List.find? (fun m => m == w) t :=
        List.find?_cons_of_neg t (by simp [hw])
      unfold chooseMode at ih ⊢
      rw [hfind, ih]
      have hmem : (w ∈ a :: t) ↔ w ∈ t := by
        constructor
        · intro h
          rcases List.mem_cons.mp h with h | h
          · exact absurd h.symm hw
          · exact h
        · exact fun h => List.mem_cons.mpr (Or.inr h)
      simp [hmem]

theorem createdViews_append (xs ys : List Event) :
    createdViews (xs ++ ys) = createdViews xs ++ createdViews ys := by
  induction xs with
  | nil => rfl
  | cons e rest ih => cases e <;> simp [createdViews, ih]

theorem destroyedViews_append (xs ys : List Event) :
    destroyedViews (xs ++ ys) = destroyedViews xs ++ destroyedViews ys := by
  induction xs with
  | nil => rfl
  | cons e rest ih => cases e <;> simp [destroyedViews, ih]

theorem destroyedSwapchains_append (xs ys : List Event) :
    destroyedSwapchains (xs ++ ys) =
      destroyedSwapchains xs ++ destroyedSwapchains ys := by
  induction xs with
  | nil => rfl
  | cons e rest ih => cases e <;> simp [destroyedSwapchains, ih]

theorem destroyedViews_map_dView (vs : List Nat) :
    destroyedViews (vs.map Event.dView) = vs := by
  induction vs with
  | nil => rfl
  | cons v rest ih => simp [destroyedViews, ih]

theorem destroyedViews_map_cView (vs : List Nat) :
    destroyedViews (vs.map Event.cView) = [] := by
  induction vs with
  | nil => rfl
  | cons v rest ih => simp [destroyedViews, ih]

theorem createdViews_map_cView (vs : List Nat) :
    createdViews (vs.map Event.cView) = vs := by
  induction vs with
  | nil => rfl
  | cons v rest ih => simp [createdViews, ih]

theorem createdViews_map_dView (vs : List Nat) :
    createdViews (vs.map Event.dView) = [] := by
  induction vs with
  | nil => rfl
  | cons v rest ih => simp [createdViews, ih]

theorem destroyedSwapchains_map_dView (vs : List Nat) :
    destroyedSwapchains (vs.map Event.dView) = [] := by
  induction vs with
  | nil => rfl
  | cons v rest ih => simp [destroyedSwapchains, ih]

theorem destroyedSwapchains_map_cView (vs : List Nat) :
    destroyedSwapchains (vs.map Event.cView) = [] := by
  induction vs with
  | nil => rfl
  | cons v rest ih => simp [destroyedSwapchains, ih]

theorem createdViews_cSwap (h : Nat) (xs : List Event) :
    createdViews (Event.cSwap h :: xs) = createdViews xs := rfl

theorem destroyedViews_cSwap (h : Nat) (xs : List Event) :
    destroyedViews (Event.cSwap h :: xs) = destroyedViews xs := rfl

theorem destroyedSwapchains_cSwap (h : Nat) (xs : List Event) :
    destroyedSwapchains (Event.cSwap h :: xs) = destroyedSwapchains xs := rfl

/-- Inversion of a successful `recreate_swapchain` call: the guards that
held and the exact resulting state and trace. -/
theorem recreate_some_inv {env : RecreateEnv} {st : BaseVkState} {pm : Nat}
    {ws : Extent2D} {uf : Nat} {sf : SurfaceFormat} {st' : BaseVkState}
    {tr : List Event}
    (h : recreate_swapchain env st pm ws uf sf = some (st', tr)) :
    st.surfaceFnPresent = true ∧ st.swapchainFnPresent = true ∧
    flagsContain env.caps.supportedUsageFlags uf = true ∧
    ∃ fmt, chooseFormat env.formats sf = some fmt ∧
      st' = { st with
                swapchainCreateInfo := some
                  { imageArrayLayers := 1
                    surface := st.surface
                    preTransform := preTransformIdentity
                    compositeAlpha := compositeAlphaOpaque
                    clipped := true
                    oldSwapchain := st.swapchain
                    presentMode := chooseMode env.presentModes pm
                    minImageCount := chooseImageCount env.caps
                    imageExtent := chooseExtent env.caps ws
                    imageUsage := uf
                    imageFormat := fmt.format
                    imageColorSpace := fmt.colorSpace }
                swapchain := env.createdSwapchain
                swapchainImageViews :=
                  some (env.swapchainImages.map env.createImageView) } ∧
      tr = Event.cSwap env.createdSwapchain ::
            ((st.swapchainImageViews.getD []).map Event.dView
              ++ (env.swapchainImages.map env.createImageView).map Event.cView) := by
  unfold recreate_swapchain at h
  split at h
  case isFalse => exact absurd h (by simp)
  case isTrue h1 =>
    split at h
    case isFalse => exact absurd h (by simp)
    case isTrue h2 =>
      split at h
      case h_2 => exact absurd h (by simp)
      case h_1 fmt hfmt =>
        split at h
        case isFalse => exact absurd h (by simp)
        case isTrue h3 =>
          simp only [Option.some.injEq, Prod.mk.injEq] at h
          exact ⟨h1, h3, h2, fmt, hfmt, h.1.symm, h.2.symm⟩

/-- Per-call image-view accounting: a successful call destroys exactly the
previous view list and ends holding exactly the views it created. -/
theorem recreate_views_account {env : RecreateEnv} {st : BaseVkState} {pm : Nat}
    {ws : Extent2D} {uf : Nat} {sf : SurfaceFormat} {st' : BaseVkState}
    {tr : List Event}
    (h : recreate_swapchain env st pm ws uf sf = some (st', tr)) :
    destroyedViews tr = st.swapchainImageViews.getD [] ∧
    createdViews tr = env.swapchainImages.map env.createImageView ∧
    st'.swapchainImageViews = some (env.swapchainImages.map env.createImageView) := by
  obtain ⟨-, -, -, fmt, -, hst, htr⟩ := recreate_some_inv h
  subst hst htr
  refine ⟨?_, ?_, rfl⟩
  · rw [destroyedViews_cSwap, destroyedViews_append, destroyedViews_map_dView,
      destroyedViews_map_cView, List.append_nil]
  · rw [createdViews_cSwap, createdViews_append, createdViews_map_dView,
      createdViews_map_cView, List.nil_append]

/-- View balance along any successful call sequence: the views held on
entry plus the views created equal the views destroyed plus the views still
held on exit. -/
theorem recreateSeq_balance (calls : List (RecreateEnv × RecArgs)) :
    ∀ st0 stN tr, recreateSeq st0 calls = some (stN, tr) →
      st0.swapchainImageViews.getD [] ++ createdViews tr =
        destroyedViews tr ++ stN.swapchainImageViews.getD [] := by
  induction calls with
  | nil =>
    intro st0 stN tr h
    simp only [recreateSeq, Option.some.injEq, Prod.mk.injEq] at h
    rw [← h.1, ← h.2]
    simp [createdViews, destroyedViews]
  | cons c rest ih =>
    intro st0 stN tr h
    obtain ⟨cenv, ca⟩ := c
    simp only [recreateSeq] at h
    cases hcall : recreate_swapchain cenv st0 ca.presentMode ca.windowSize
        ca.usageFlags ca.surfaceFormat with
    | none => rw [hcall] at h; exact absurd h (by simp)
    | some p =>
      obtain ⟨st1, tr1⟩ := p
      rw [hcall] at h
      dsimp only at h
      cases hrest : recreateSeq st1 rest with
      | none => rw [hrest] at h; exact absurd h (by simp)
      | some p2 =>
        obtain ⟨st2, tr2⟩ := p2
        rw [hrest] at h
        dsimp only at h
        simp only [Option.some.injEq, Prod.mk.injEq] at h
        obtain ⟨h1, h2⟩ := h
        subst h1
        subst h2
        obtain ⟨hd, hc, hv⟩ := recreate_views_account hcall
        have hbal := ih st1 st2 tr2 hrest
        rw [hv] at hbal
        simp only [Option.getD_some] at hbal
        rw [createdViews_append, destroyedViews_append, hd, hc, hbal]
        exact (List.append_assoc _ _ _).symm

/-- Splitting lemma for event ordering: if the trace is `xs ++ ys`, no event
of `xs` satisfies `q` and no event of `ys` satisfies `p`, then every
`p`-event precedes every `q`-event. -/
theorem evBefore_split (p q : Event → Bool) (xs ys : List Event)
    (hq : ∀ e ∈ xs, q e = false) (hp : ∀ e ∈ ys, p e = false) :
    evBefore p q (xs ++ ys) := by
  intro i j hi hj hpi hqj
  rcases Nat.lt_or_ge i xs.length with h1 | h1
  · rcases Nat.lt_or_ge j xs.length with h2 | h2
    · exfalso
      have hx : (xs ++ ys).get ⟨j, hj⟩ = xs.get ⟨j, h2⟩ := by
        simp [List.get_eq_getElem, List.getElem_append_left h2]
      rw [hx] at hqj
      rw [hq _ (List.get_mem xs j h2)] at hqj
      exact Bool.false_ne_true hqj
    · exact Nat.lt_of_lt_of_le h1 h2
  · exfalso
    have hlen : i - xs.length < ys.length := by
      have := hi
      rw [List.length_append] at this
      omega
    have hx : (xs ++ ys).get ⟨i, hi⟩ = ys.get ⟨i - xs.length, hlen⟩ := by
      simp [List.get_eq_getElem, List.getElem_append_right h1]
    rw [hx] at hpi
    rw [hp _ (List.get_mem ys _ hlen)] at hpi
    exact Bool.false_ne_true hpi

/-! ## Concrete driver environments used by the witness theorems -/

/-- A concrete recreate-call environment: sentinel current extent, usage
bits 0b11 supported, present modes IMMEDIATE and FIFO, one format. -/
def envR : RecreateEnv :=
  { presentModes := [0, 2]
    caps :=
      { minImageCount := 2
        maxImageCount := 4
        currentExtent := ⟨0xFFFFFFFF, 0xFFFFFFFF⟩
        minImageExtent := ⟨100, 100⟩
        maxImageExtent := ⟨200, 200⟩
        supportedUsageFlags := 3 }
    formats := [⟨1, 1⟩]
    createdSwapchain := 11
    swapchainImages := [21, 22]
    createImageView := fun im => im + 100 }

/-- A concrete post-construction state with surface support. -/
def stR : BaseVkState :=
  { surface := 7
    surfaceFnPresent := true
    physicalDevice := 1
    queueFamilyIndex := 0
    queues := [5]
    swapchainFnPresent := true
    swapchainCreateInfo := none
    swapchain := 0
    swapchainImageViews := none }

/-- The create-info produced by `recreate_swapchain` under `envR` from `stR`
with mode 0, window 150x150, usage 1, format (1,1). -/
def infoW1 : SwapchainCreateInfoKHR :=
  { imageArrayLayers := 1
    surface := 7
    preTransform := 1
    compositeAlpha := 1
    clipped := true
    oldSwapchain := 0
    presentMode := 0
    minImageCount := 3
    imageExtent := ⟨150, 150⟩
    imageUsage := 1
    imageFormat := 1
    imageColorSpace := 1 }

/-- State after the first recreate call under `envR`. -/
def stW1 : BaseVkState :=
  { stR with
      swapchainCreateInfo := some infoW1
      swapchain := 11
      swapchainImageViews := some [121, 122] }

/-- Trace of the first recreate call under `envR`. -/
def trW1 : List Event := [Event.cSwap 11, Event.cView 121, Event.cView 122]

/-- State after a second identical recreate call under `envR`. -/
def stW2 : BaseVkState :=
  { stW1 with swapchainCreateInfo := some { infoW1 with oldSwapchain := 11 } }

/-- Trace of the second recreate call under `envR`. -/
def trW2 : List Event :=
  [Event.cSwap 11, Event.dView 121, Event.dView 122, Event.cView 121, Event.cView 122]

/-- The recreate arguments used by the witnesses. -/
def argsW : RecArgs :=
  { presentMode := 0, windowSize := ⟨150, 150⟩, usageFlags := 1, surfaceFormat := ⟨1, 1⟩ }

/-- Result state when the requested present mode 1 is unsupported: FIFO (2). -/
def stW1m : BaseVkState :=
  { stW1 with swapchainCreateInfo := some { infoW1 with presentMode := 2 } }

/-- `envR` with `maxImageCount = 0` (no upper clamp). -/
def envR0 : RecreateEnv :=
  { envR with caps := { envR.caps with maxImageCount := 0 } }

/-- `envR` with a non-sentinel `currentExtent`. -/
def envRc : RecreateEnv :=
  { envR with caps := { envR.caps with currentExtent := ⟨300, 300⟩ } }

/-- Result state under `envRc`: the extent is adopted from `currentExtent`. -/
def stW1c : BaseVkState :=
  { stW1 with swapchainCreateInfo := some { infoW1 with imageExtent := ⟨300, 300⟩ } }

/-- Witness inputs for construction: one device advertising the swapchain
extension, one queue family with flags 0b11 and two queues. -/
def devFeatsW : DeviceFeatures :=
  { features := { robustBufferAccess := 0, rest := [] }, chainBits := fun _ => [] }

def physDevW : PhysDevice :=
  { handle := 4
    extensions := [extSwapchainId]
    feats := devFeatsW
    queueFamilies := [{ queueFlags := 3, queueCount := 2 }]
    surfaceSupport := fun _ => true }

def envNW : NewEnv :=
  { devices := [physDevW], getDeviceQueue := fun _ _ => 5, surfaceHandle := 7 }

def reqW : PhysicalDeviceFeatures2 :=
  { features := { robustBufferAccess := 0, rest := [] }, chain := [] }

def dqW : List (Nat × Nat) := [(1, 0), (2, 0)]

/-- The state `BaseVk_new` produces from `envNW` with a window. -/
def stNW : BaseVkState :=
  { surface := 7
    surfaceFnPresent := true
    physicalDevice := 4
    queueFamilyIndex := 0
    queues := [5, 5]
    swapchainFnPresent := true
    swapchainCreateInfo := none
    swapchain := 0
    swapchainImageViews := none }

/-- Inputs exhibiting the `robust_buffer_access` override: the caller
requests the root feature, the device does not advertise it. -/
def c1Req : PhysicalDeviceFeatures2 :=
  { features := { robustBufferAccess := 1, rest := [] }, chain := [] }

def c1Dev : DeviceFeatures :=
  { features := { robustBufferAccess := 0, rest := [] }, chainBits := fun _ => [] }

def c1PhysDevice : PhysDevice :=
  { handle := 9
    extensions := []
    feats := c1Dev
    queueFamilies := [{ queueFlags := 0, queueCount := 0 }]
    surfaceSupport := fun _ => true }

/-! ## Block lemmas for event-ordering proofs -/

theorem all_false_singleton {p : Event → Bool} {a : Event} (h : p a = false) :
    ∀ e ∈ [a], p e = false := by
  intro e he
  rw [List.mem_singleton.mp he]
  exact h

theorem all_false_map_dView {p : Event → Bool} (h : ∀ v, p (Event.dView v) = false)
    (vs : List Nat) : ∀ e ∈ vs.map Event.dView, p e = false := by
  intro e he
  obtain ⟨v, -, rfl⟩ := List.mem_map.mp he
  exact h v

theorem all_false_ite {p : Event → Bool} {c : Prop} [Decidable c] {a : Event}
    (h : p a = false) : ∀ e ∈ (if c then [a] else ([] : List Event)), p e = false := by
  intro e he
  by_cases hc : c
  · rw [if_pos hc] at he
    rw [List.mem_singleton.mp he]
    exact h
  · rw [if_neg hc] at he
    exact absurd he (List.not_mem_nil e)

theorem all_false_append {p : Event → Bool} {xs ys : List Event}
    (hx : ∀ e ∈ xs, p e = false) (hy : ∀ e ∈ ys, p e = false) :
    ∀ e ∈ xs ++ ys, p e = false := by
  intro e he
  rcases List.mem_append.mp he with he | he
  · exact hx e he
  · exact hy e he

/-! ## Claim theorems -/

/-- Claim C1.  The claim states that during physical-device selection a
device is kept only if every requested feature bit, the root features
structure's boolean fields included, is advertised by the device.  The code
falsifies this: base_vk.rs line 233 overwrites the queried
`features.robust_buffer_access` with the sentinel 300 before comparing, so
a device that does not advertise a requested `robust_buffer_access` is kept
anyway.  Here: the requested chain sets only the root
`robust_buffer_access` bit, the device advertises nothing, yet
`goodDevices` keeps the device, `deviceFeatureCheck` (the code) accepts,
while `specFeatureCheck` (the clone+query+compare the claim describes,
without the overwrite) rejects. -/
theorem c1_feature_override_keeps_device :
    goodDevices [c1PhysDevice] [] c1Req [] false = [(9, 0)] ∧
    deviceFeatureCheck c1Req c1Dev = true ∧
    specFeatureCheck c1Req c1Dev = false :=
  ⟨rfl, rfl, rfl⟩

/-- Claim C7: after a successful `recreate_swapchain`, the retained
create-info's present mode is the requested one when the surface supports
it and FIFO otherwise. -/
theorem c7_present_mode_fallback
    (env : RecreateEnv) (st : BaseVkState) (pm : Nat) (ws : Extent2D)
    (uf : Nat) (sf : SurfaceFormat) (st' : BaseVkState) (tr : List Event)
    (h : recreate_swapchain env st pm ws uf sf = some (st', tr)) :
    st'.swapchainCreateInfo.map SwapchainCreateInfoKHR.presentMode =
      some (if pm ∈ env.presentModes then pm else fifoMode) := by
  obtain ⟨-, -, -, fmt, -, hst, -⟩ := recreate_some_inv h
  subst hst
  simp [chooseMode_eq]

/-- Witness for C7: mode 0 is supported by `envR` and chosen; mode 1 is not
and FIFO is chosen. -/
theorem c7_present_mode_fallback_witness :
    stW1.swapchainCreateInfo.map SwapchainCreateInfoKHR.presentMode =
      some (if 0 ∈ envR.presentModes then 0 else fifoMode) ∧
    stW1m.swapchainCreateInfo.map SwapchainCreateInfoKHR.presentMode =
      some (if 1 ∈ envR.presentModes then 1 else fifoMode) :=
  ⟨c7_present_mode_fallback envR stR 0 ⟨150, 150⟩ 1 ⟨1, 1⟩ stW1 trW1 rfl,
   c7_present_mode_fallback envR stR 1 ⟨150, 150⟩ 1 ⟨1, 1⟩ stW1m trW1 rfl⟩

/-- Claim C8: after a successful `recreate_swapchain`, the retained minimum
image count is `caps.minImageCount + 1`, clamped above by
`caps.maxImageCount` exactly when the latter is non-zero. -/
theorem c8_min_image_count
    (env : RecreateEnv) (st : BaseVkState) (pm : Nat) (ws : Extent2D)
    (uf : Nat) (sf : SurfaceFormat) (st' : BaseVkState) (tr : List Event)
    (h : recreate_swapchain env st pm ws uf sf = some (st', tr)) :
    st'.swapchainCreateInfo.map SwapchainCreateInfoKHR.minImageCount =
      some (if env.caps.maxImageCount = 0 then env.caps.minImageCount + 1
            else min (env.caps.minImageCount + 1) env.caps.maxImageCount) := by
  obtain ⟨-, -, -, fmt, -, hst, -⟩ := recreate_some_inv h
  subst hst
  by_cases hm : env.caps.maxImageCount = 0 <;> simp [chooseImageCount, hm]

/-- Witness for C8: with max 4 the count is min(2+1,4)=3; with max 0 it is
2+1=3 with no clamp. -/
theorem c8_min_image_count_witness :
    stW1.swapchainCreateInfo.map SwapchainCreateInfoKHR.minImageCount =
      some (if envR.caps.maxImageCount = 0 then envR.caps.minImageCount + 1
            else min (envR.caps.minImageCount + 1) envR.caps.maxImageCount) ∧
    stW1.swapchainCreateInfo.map SwapchainCreateInfoKHR.minImageCount =
      some (if envR0.caps.maxImageCount = 0 then envR0.caps.minImageCount + 1
            else min (envR0.caps.minImageCount + 1) envR0.caps.maxImageCount) :=
  ⟨c8_min_image_count envR stR 0 ⟨150, 150⟩ 1 ⟨1, 1⟩ stW1 trW1 rfl,
   c8_min_image_count envR0 stR 0 ⟨150, 150⟩ 1 ⟨1, 1⟩ stW1 trW1 rfl⟩

/-- Claim C9: after a successful `recreate_swapchain`, the retained extent
is the requested size clamped componentwise into
[minImageExtent, maxImageExtent] when `currentExtent` is the 0xFFFFFFFF
sentinel in both dimensions, and is `currentExtent` otherwise; `clampNum`
indeed lands in the interval and is the identity inside it. -/
theorem c9_image_extent
    (env : RecreateEnv) (st : BaseVkState) (pm : Nat) (ws : Extent2D)
    (uf : Nat) (sf : SurfaceFormat) (st' : BaseVkState) (tr : List Event)
    (h : recreate_swapchain env st pm ws uf sf = some (st', tr)) :
    (env.caps.currentExtent.width = 0xFFFFFFFF ∧
        env.caps.currentExtent.height = 0xFFFFFFFF →
      st'.swapchainCreateInfo.map SwapchainCreateInfoKHR.imageExtent =
        some ⟨clampNum ws.width env.caps.minImageExtent.width env.caps.maxImageExtent.width,
              clampNum ws.height env.caps.minImageExtent.height env.caps.maxImageExtent.height⟩) ∧
    (¬(env.caps.currentExtent.width = 0xFFFFFFFF ∧
        env.caps.currentExtent.height = 0xFFFFFFFF) →
      st'.swapchainCreateInfo.map SwapchainCreateInfoKHR.imageExtent =
        some env.caps.currentExtent) ∧
    (∀ v lo hi, lo ≤ hi → lo ≤ clampNum v lo hi ∧ clampNum v lo hi ≤ hi ∧
      (lo ≤ v → v ≤ hi → clampNum v lo hi = v)) := by
  obtain ⟨-, -, -, fmt, -, hst, -⟩ := recreate_some_inv h
  subst hst
  refine ⟨?_, ?_, ?_⟩
  · intro hsent
    simp [chooseExtent, hsent.1, hsent.2]
  · intro hns
    have hcond : (env.caps.currentExtent.width == 0xFFFFFFFF &&
        env.caps.currentExtent.height == 0xFFFFFFFF) = false := by
      rcases not_and_or.mp hns with hw | hw <;> simp [hw]
    simp [chooseExtent, hcond]
  · intro v lo hi hle
    unfold clampNum
    split_ifs with h1 h2
    · exact ⟨Nat.le_refl lo, hle, fun hv1 _ => by omega⟩
    · exact ⟨by omega, by omega, fun _ hv2 => by omega⟩
    · exact ⟨by omega, by omega, fun _ _ => rfl⟩

/-- Witness for C9: under `envR` (sentinel extent) the clamped window size
150x150 is recorded; under `envRc` the surface's 300x300 is adopted. -/
theorem c9_image_extent_witness :
    ((envR.caps.currentExtent.width = 0xFFFFFFFF ∧
        envR.caps.currentExtent.height = 0xFFFFFFFF →
      stW1.swapchainCreateInfo.map SwapchainCreateInfoKHR.imageExtent =
        some ⟨clampNum 150 envR.caps.minImageExtent.width envR.caps.maxImageExtent.width,
              clampNum 150 envR.caps.minImageExtent.height envR.caps.maxImageExtent.height⟩) ∧
     (¬(envR.caps.currentExtent.width = 0xFFFFFFFF ∧
        envR.caps.currentExtent.height = 0xFFFFFFFF) →
      stW1.swapchainCreateInfo.map SwapchainCreateInfoKHR.imageExtent =
        some envR.caps.currentExtent) ∧
     (∀ v lo hi, lo ≤ hi → lo ≤ clampNum v lo hi ∧ clampNum v lo hi ≤ hi ∧
       (lo ≤ v → v ≤ hi → clampNum v lo hi = v))) ∧
    (¬(envRc.caps.currentExtent.width = 0xFFFFFFFF ∧
        envRc.caps.currentExtent.height = 0xFFFFFFFF) →
      stW1c.swapchainCreateInfo.map SwapchainCreateInfoKHR.imageExtent =
        some envRc.caps.currentExtent) :=
  ⟨c9_image_extent envR stR 0 ⟨150, 150⟩ 1 ⟨1, 1⟩ stW1 trW1 rfl,
   (c9_image_extent envRc stR 0 ⟨150, 150⟩ 1 ⟨1, 1⟩ stW1c trW1 rfl).2.1⟩

/-- Claim C10: `recreate_swapchain` aborts when the requested usage flags
are not all supported by the surface, and records them unchanged otherwise. -/
theorem c10_usage_flags
    (env : RecreateEnv) (st : BaseVkState) (pm : Nat) (ws : Extent2D)
    (uf : Nat) (sf : SurfaceFormat) :
    (flagsContain env.caps.supportedUsageFlags uf = false →
      recreate_swapchain env st pm ws uf sf = none) ∧
    (∀ st' tr, recreate_swapchain env st pm ws uf sf = some (st', tr) →
      st'.swapchainCreateInfo.map SwapchainCreateInfoKHR.imageUsage = some uf) := by
  constructor
  · intro hbad
    unfold recreate_swapchain
    by_cases h1 : st.surfaceFnPresent = true
    · rw [if_pos h1, hbad]
      simp
    · rw [if_neg h1]
  · intro st' tr h
    obtain ⟨-, -, -, fmt, -, hst, -⟩ := recreate_some_inv h
    subst hst
    rfl

/-- Witness for C10: usage 4 is outside the supported 0b11 and aborts;
usage 1 is supported and recorded. -/
theorem c10_usage_flags_witness :
    recreate_swapchain envR stR 0 ⟨150, 150⟩ 4 ⟨1, 1⟩ = none ∧
    stW1.swapchainCreateInfo.map SwapchainCreateInfoKHR.imageUsage = some 1 :=
  ⟨(c10_usage_flags envR stR 0 ⟨150, 150⟩ 4 ⟨1, 1⟩).1 rfl,
   (c10_usage_flags envR stR 0 ⟨150, 150⟩ 1 ⟨1, 1⟩).2 stW1 trW1 rfl⟩

/-- Claim C2: two successive `recreate_swapchain` calls with identical
arguments against unchanged surface data produce retained create-infos that
agree on every field except the `oldSwapchain` handle, which in the second
call holds the swapchain handle live after the first. -/
theorem c2_recreate_twice_create_info
    (env : RecreateEnv) (st : BaseVkState) (pm : Nat) (ws : Extent2D)
    (uf : Nat) (sf : SurfaceFormat) (st1 st2 : BaseVkState)
    (tr1 tr2 : List Event)
    (h1 : recreate_swapchain env st pm ws uf sf = some (st1, tr1))
    (h2 : recreate_swapchain env st1 pm ws uf sf = some (st2, tr2)) :
    ∃ i1 i2, st1.swapchainCreateInfo = some i1 ∧
      st2.swapchainCreateInfo = some i2 ∧
      { i2 with oldSwapchain := i1.oldSwapchain } = i1 ∧
      i2.oldSwapchain = st1.swapchain := by
  obtain ⟨-, -, -, f1, hf1, hst1, -⟩ := recreate_some_inv h1
  obtain ⟨-, -, -, f2, hf2, hst2, -⟩ := recreate_some_inv h2
  rw [hf1, Option.some.injEq] at hf2
  subst hf2
  subst hst1
  subst hst2
  exact ⟨_, _, rfl, rfl, rfl, rfl⟩

/-- Witness for C2: the two concrete calls under `envR`. -/
theorem c2_recreate_twice_create_info_witness :
    ∃ i1 i2, stW1.swapchainCreateInfo = some i1 ∧
      stW2.swapchainCreateInfo = some i2 ∧
      { i2 with oldSwapchain := i1.oldSwapchain } = i1 ∧
      i2.oldSwapchain = stW1.swapchain :=
  c2_recreate_twice_create_info envR stR 0 ⟨150, 150⟩ 1 ⟨1, 1⟩ stW1 stW2
    trW1 trW2 rfl rfl

/-- Claim C3: after every successful `recreate_swapchain`, the view list has
one view per image the driver reports for the new swapchain, positionally
built from those images, the retained create-info's `oldSwapchain` is the
handle live immediately before the call, the previous views are exactly the
ones destroyed; and along any successful N-call sequence started with no
views, every view ever created is either destroyed by a later call or still
held at the end — no view leaks. -/
theorem c3_image_views_track_images_no_leak :
    (∀ (env : RecreateEnv) (st : BaseVkState) (pm : Nat) (ws : Extent2D)
        (uf : Nat) (sf : SurfaceFormat) (st' : BaseVkState) (tr : List Event),
      recreate_swapchain env st pm ws uf sf = some (st', tr) →
      ∃ vs, st'.swapchainImageViews = some vs ∧
        vs.length = env.swapchainImages.length ∧
        (∀ i (h1 : i < vs.length) (h2 : i < env.swapchainImages.length),
          vs.get ⟨i, h1⟩ = env.createImageView (env.swapchainImages.get ⟨i, h2⟩)) ∧
        st'.swapchainCreateInfo.map SwapchainCreateInfoKHR.oldSwapchain =
          some st.swapchain ∧
        destroyedViews tr = st.swapchainImageViews.getD []) ∧
    (∀ (st0 : BaseVkState) (calls : List (RecreateEnv × RecArgs))
        (stN : BaseVkState) (tr : List Event),
      st0.swapchainImageViews = none →
      recreateSeq st0 calls = some (stN, tr) →
      createdViews tr = destroyedViews tr ++ stN.swapchainImageViews.getD []) := by
  constructor
  · intro env st pm ws uf sf st' tr h
    obtain ⟨hd, -, -⟩ := recreate_views_account h
    obtain ⟨-, -, -, fmt, -, hst, -⟩ := recreate_some_inv h
    subst hst
    refine ⟨env.swapchainImages.map env.createImageView, rfl, by simp, ?_, rfl, hd⟩
    intro i h1 h2
    simp [List.get_eq_getElem, List.getElem_map]
  · intro st0 calls stN tr h0 h
    have hbal := recreateSeq_balance calls st0 stN tr h
    rw [h0] at hbal
    simpa using hbal

/-- Witness for C3: the single call under `envR` and the two-call sequence. -/
theorem c3_image_views_track_images_no_leak_witness :
    (∃ vs, stW1.swapchainImageViews = some vs ∧
      vs.length = envR.swapchainImages.length ∧
      (∀ i (h1 : i < vs.length) (h2 : i < envR.swapchainImages.length),
        vs.get ⟨i, h1⟩ = envR.createImageView (envR.swapchainImages.get ⟨i, h2⟩)) ∧
      stW1.swapchainCreateInfo.map SwapchainCreateInfoKHR.oldSwapchain =
        some stR.swapchain ∧
      destroyedViews trW1 = stR.swapchainImageViews.getD []) ∧
    createdViews (trW1 ++ (trW2 ++ [])) =
      destroyedViews (trW1 ++ (trW2 ++ [])) ++ stW2.swapchainImageViews.getD [] :=
  ⟨c3_image_views_track_images_no_leak.1 envR stR 0 ⟨150, 150⟩ 1 ⟨1, 1⟩
      stW1 trW1 rfl,
   c3_image_views_track_images_no_leak.2 stR [(envR, argsW), (envR, argsW)]
      stW2 (trW1 ++ (trW2 ++ [])) rfl rfl⟩

/-- Claim C5: after every successful construction the number of stored
queue handles equals the number of requested (flags, priority) pairs, each
queue is fetched from the single selected family at consecutive indices,
every queue handle is non-null (given the driver returns non-null handles),
and when a window handle was supplied the surface and the swapchain loader
are present while the swapchain handle is null and the image-view sequence
and retained create-info are absent. -/
theorem c5_construction_invariants
    (env : NewEnv) (exts : List Nat) (req : PhysicalDeviceFeatures2)
    (dq : List (Nat × Nat)) (hasWindow : Bool) (st : BaseVkState)
    (h : BaseVk_new env exts req dq hasWindow = some st)
    (hq : ∀ f i, env.getDeviceQueue f i ≠ 0)
    (hs : hasWindow = true → env.surfaceHandle ≠ 0) :
    st.queues.length = dq.length ∧
    (∀ i (hi : i < st.queues.length),
      st.queues.get ⟨i, hi⟩ = env.getDeviceQueue st.queueFamilyIndex i) ∧
    (∀ q ∈ st.queues, q ≠ 0) ∧
    (hasWindow = true →
      st.surface ≠ 0 ∧ st.surfaceFnPresent = true ∧
      st.swapchainFnPresent = true ∧ st.swapchain = 0 ∧
      st.swapchainImageViews = none ∧ st.swapchainCreateInfo = none) := by
  unfold BaseVk_new at h
  split at h
  case h_1 => exact absurd h (by simp)
  case h_2 sel rest hg =>
    simp only [Option.some.injEq] at h
    subst h
    refine ⟨by simp, ?_, ?_, ?_⟩
    · intro i hi
      simp [List.get_eq_getElem, List.getElem_map, List.getElem_range]
    · intro q hqmem
      simp only [List.mem_map, List.mem_range] at hqmem
      obtain ⟨i, -, rfl⟩ := hqmem
      exact hq _ _
    · intro hw
      subst hw
      have hsur : env.surfaceHandle ≠ 0 := hs rfl
      refine ⟨?_, ?_, rfl, rfl, rfl, rfl⟩
      · simpa [newSurface] using hsur
      · simp [newSurface, bne_iff_ne, hsur]

/-- Witness for C5: the concrete construction under `envNW`. -/
theorem c5_construction_invariants_witness :
    stNW.queues.length = dqW.length ∧
    (∀ i (hi : i < stNW.queues.length),
      stNW.queues.get ⟨i, hi⟩ = envNW.getDeviceQueue stNW.queueFamilyIndex i) ∧
    (∀ q ∈ stNW.queues, q ≠ 0) ∧
    (true = true →
      stNW.surface ≠ 0 ∧ stNW.surfaceFnPresent = true ∧
      stNW.swapchainFnPresent = true ∧ stNW.swapchain = 0 ∧
      stNW.swapchainImageViews = none ∧ stNW.swapchainCreateInfo = none) :=
  c5_construction_invariants envNW [] reqW dqW true stNW rfl
    (fun f i => Nat.succ_ne_zero 4) (fun _ => by decide)

/-- Claim C6: `recreate_swapchain` never destroys the swapchain handle that
was live before the call — its trace contains no swapchain destruction, the
previous handle only appears as the new create-info's `oldSwapchain`, and
the state's handle is overwritten with the newly created one; the only
swapchain the core ever explicitly destroys is the one live at drop time. -/
theorem c6_previous_swapchain_never_destroyed :
    (∀ (env : RecreateEnv) (st : BaseVkState) (pm : Nat) (ws : Extent2D)
        (uf : Nat) (sf : SurfaceFormat) (st' : BaseVkState) (tr : List Event),
      recreate_swapchain env st pm ws uf sf = some (st', tr) →
      (∀ hh, Event.dSwap hh ∉ tr) ∧
      st'.swapchainCreateInfo.map SwapchainCreateInfoKHR.oldSwapchain =
        some st.swapchain ∧
      st'.swapchain = env.createdSwapchain) ∧
    (∀ (debugBuild : Bool) (st : BaseVkState),
      destroyedSwapchains (BaseVk_drop debugBuild st) =
        if st.swapchainFnPresent then [st.swapchain] else []) := by
  constructor
  · intro env st pm ws uf sf st' tr h
    obtain ⟨-, -, -, fmt, -, hst, htr⟩ := recreate_some_inv h
    subst hst
    subst htr
    refine ⟨?_, rfl, rfl⟩
    intro hh hmem
    simp only [List.mem_cons, List.mem_append, List.mem_map] at hmem
    rcases hmem with hmem | hmem | hmem
    · exact Event.noConfusion hmem
    · obtain ⟨v, -, hv⟩ := hmem
      exact Event.noConfusion hv
    · obtain ⟨v, -, hv⟩ := hmem
      exact Event.noConfusion hv
  · intro debugBuild st
    by_cases h1 : st.swapchainFnPresent <;> by_cases h2 : st.surfaceFnPresent <;>
      by_cases h3 : debugBuild <;>
      simp [BaseVk_drop, h1, h2, h3, destroyedSwapchains_append,
        destroyedSwapchains_map_dView, destroyedSwapchains]

/-- Witness for C6: the first concrete recreate call and the drop of its
resulting state. -/
theorem c6_previous_swapchain_never_destroyed_witness :
    ((∀ hh, Event.dSwap hh ∉ trW1) ∧
      stW1.swapchainCreateInfo.map SwapchainCreateInfoKHR.oldSwapchain =
        some stR.swapchain ∧
      stW1.swapchain = envR.createdSwapchain) ∧
    destroyedSwapchains (BaseVk_drop true stW1) =
      if stW1.swapchainFnPresent then [stW1.swapchain] else [] :=
  ⟨c6_previous_swapchain_never_destroyed.1 envR stR 0 ⟨150, 150⟩ 1 ⟨1, 1⟩
      stW1 trW1 rfl,
   c6_previous_swapchain_never_destroyed.2 true stW1⟩

/-- Claim C4: in the drop glue, every image-view destruction precedes the
swapchain destruction, which precedes the device destruction, which
precedes the surface destruction, which precedes both the debug-messenger
and the instance destruction; and the allocator is released before the
device. -/
theorem c4_drop_destruction_order (debugBuild : Bool) (st : BaseVkState) :
    evBefore isDView isDSwap (BaseVk_drop debugBuild st) ∧
    evBefore isDSwap isDDev (BaseVk_drop debugBuild st) ∧
    evBefore isDDev isDSurf (BaseVk_drop debugBuild st) ∧
    evBefore isDSurf isDMsgr (BaseVk_drop debugBuild st) ∧
    evBefore isDSurf isDInst (BaseVk_drop debugBuild st) ∧
    evBefore isDAlloc isDDev (BaseVk_drop debugBuild st) := by
  refine ⟨?_, ?_, ?_, ?_, ?_, ?_⟩
  · have hsplit : BaseVk_drop debugBuild st =
        ([Event.dAlloc] ++ (st.swapchainImageViews.getD []).map Event.dView) ++
        ((if st.swapchainFnPresent then [Event.dSwap st.swapchain] else []) ++
          ([Event.dDev] ++
            ((if st.surfaceFnPresent then [Event.dSurf st.surface] else []) ++
              ((if debugBuild then [Event.dMsgr] else []) ++ [Event.dInst])))) := by
      simp only [BaseVk_drop, List.append_assoc]
    rw [hsplit]
    exact evBefore_split _ _ _ _
      (all_false_append (all_false_singleton rfl)
        (all_false_map_dView (fun v => rfl) _))
      (all_false_append (all_false_ite rfl)
        (all_false_append (all_false_singleton rfl)
          (all_false_append (all_false_ite rfl)
            (all_false_append (all_false_ite rfl) (all_false_singleton rfl)))))
  · have hsplit : BaseVk_drop debugBuild st =
        (([Event.dAlloc] ++ (st.swapchainImageViews.getD []).map Event.dView) ++
            (if st.swapchainFnPresent then [Event.dSwap st.swapchain] else [])) ++
        ([Event.dDev] ++
          ((if st.surfaceFnPresent then [Event.dSurf st.surface] else []) ++
            ((if debugBuild then [Event.dMsgr] else []) ++ [Event.dInst]))) := by
      simp only [BaseVk_drop, List.append_assoc]
    rw [hsplit]
    exact evBefore_split _ _ _ _
      (all_false_append
        (all_false_append (all_false_singleton rfl)
          (all_false_map_dView (fun v => rfl) _))
        (all_false_ite rfl))
      (all_false_append (all_false_singleton rfl)
        (all_false_append (all_false_ite rfl)
          (all_false_append (all_false_ite rfl) (all_false_singleton rfl))))
  · have hsplit : BaseVk_drop debugBuild st =
        ((([Event.dAlloc] ++ (st.swapchainImageViews.getD []).map Event.dView) ++
            (if st.swapchainFnPresent then [Event.dSwap st.swapchain] else [])) ++
          [Event.dDev]) ++
        ((if st.surfaceFnPresent then [Event.dSurf st.surface] else []) ++
          ((if debugBuild then [Event.dMsgr] else []) ++ [Event.dInst])) := by
      simp only [BaseVk_drop, List.append_assoc]
    rw [hsplit]
    exact evBefore_split _ _ _ _
      (all_false_append
        (all_false_append
          (all_false_append (all_false_singleton rfl)
            (all_false_map_dView (fun v => rfl) _))
          (all_false_ite rfl))
        (all_false_singleton rfl))
      (all_false_append (all_false_ite rfl)
        (all_false_append (all_false_ite rfl) (all_false_singleton rfl)))
  · have hsplit : BaseVk_drop debugBuild st =
        (((([Event.dAlloc] ++ (st.swapchainImageViews.getD []).map Event.dView) ++
              (if st.swapchainFnPresent then [Event.dSwap st.swapchain] else [])) ++
            [Event.dDev]) ++
          (if st.surfaceFnPresent then [Event.dSurf st.surface] else [])) ++
        ((if debugBuild then [Event.dMsgr] else []) ++ [Event.dInst]) := by
      simp only [BaseVk_drop, List.append_assoc]
    rw [hsplit]
    exact evBefore_split _ _ _ _
      (all_false_append
        (all_false_append
          (all_false_append
            (all_false_append (all_false_singleton rfl)
              (all_false_map_dView (fun v => rfl) _))
            (all_false_ite rfl))
          (all_false_singleton rfl))
        (all_false_ite rfl))
      (all_false_append (all_false_ite rfl) (all_false_singleton rfl))
  · have hsplit : BaseVk_drop debugBuild st =
        (((([Event.dAlloc] ++ (st.swapchainImageViews.getD []).map Event.dView) ++
              (if st.swapchainFnPresent then [Event.dSwap st.swapchain] else [])) ++
            [Event.dDev]) ++
          (if st.surfaceFnPresent then [Event.dSurf st.surface] else [])) ++
        ((if debugBuild then [Event.dMsgr] else []) ++ [Event.dInst]) := by
      simp only [BaseVk_drop, List.append_assoc]
    rw [hsplit]
    exact evBefore_split _ _ _ _
      (all_false_append
        (all_false_append
          (all_false_append
            (all_false_append (all_false_singleton rfl)
              (all_false_map_dView (fun v => rfl) _))
            (all_false_ite rfl))
          (all_false_singleton rfl))
        (all_false_ite rfl))
      (all_false_append (all_false_ite rfl) (all_false_singleton rfl))
  · have hsplit : BaseVk_drop debugBuild st =
        (([Event.dAlloc] ++ (st.swapchainImageViews.getD []).map Event.dView) ++
            (if st.swapchainFnPresent then [Event.dSwap st.swapchain] else [])) ++
        ([Event.dDev] ++
          ((if st.surfaceFnPresent then [Event.dSurf st.surface] else []) ++
            ((if debugBuild then [Event.dMsgr] else []) ++ [Event.dInst]))) := by
      simp only [BaseVk_drop, List.append_assoc]
    rw [hsplit]
    exact evBefore_split _ _ _ _
      (all_false_append
        (all_false_append (all_false_singleton rfl)
          (all_false_map_dView (fun v => rfl) _))
        (all_false_ite rfl))
      (all_false_append (all_false_singleton rfl)
        (all_false_append (all_false_ite rfl)
          (all_false_append (all_false_ite rfl) (all_false_singleton rfl))))

/-- Witness for C4: the ordering at the concrete post-recreate state in a
debug build. -/
theorem c4_drop_destruction_order_witness :
    evBefore isDView isDSwap (BaseVk_drop true stW1) ∧
    evBefore isDSwap isDDev (BaseVk_drop true stW1) ∧
    evBefore isDDev isDSurf (BaseVk_drop true stW1) ∧
    evBefore isDSurf isDMsgr (BaseVk_drop true stW1) ∧
    evBefore isDSurf isDInst (BaseVk_drop true stW1) ∧
    evBefore isDAlloc isDDev (BaseVk_drop true stW1) :=
  c4_drop_destruction_order true stW1

end FPlot
